import Mathlib

/-!
Verification of the libwebsockets libevent event-loop adapter.

Shallow embedding of `lib/event-libs/libevent/libevent.c` (libwebsockets,
2017 era).  External libevent calls (`event_new`, `event_add`, `event_del`,
`event_free`, `event_base_new`, `event_base_free`, `event_base_loopbreak`)
are modelled by a `Reactor` state that allocates integer tokens for event
registrations and event bases; destructive calls are additionally recorded
in an effect trace so that ordering properties can be stated.

The embedding models one worker thread (the `tsi`-th entry of the
per-thread array `context->pt[]`); every operation in the source touches
only that one entry.  The `#if LIBEVENT_VERSION_NUMBER < 0x02000000`
branch of `lws_event_cb` is compiled out in the modelled build (the
`EV_CLOSED` flag only exists in libevent >= 2.1, so the guarded branch
cannot be part of a compiling configuration).
-/

namespace LibeventAdapter

/-! ## libevent and libwebsockets flag constants (from the C headers) -/

def EV_TIMEOUT : Nat := 0x01
def EV_READ : Nat := 0x02
def EV_WRITE : Nat := 0x04
def EV_SIGNAL : Nat := 0x08
def EV_PERSIST : Nat := 0x10

def LWS_POLLIN : Nat := 0x0001
def LWS_POLLOUT : Nat := 0x0004

def LWS_EV_READ : Nat := 1
def LWS_EV_WRITE : Nat := 2
def LWS_EV_START : Nat := 4
def LWS_EV_STOP : Nat := 8

def SIGINT : Nat := 2

/-! ## The generic poll-event record (`struct lws_pollfd`) -/

structure LwsPollfd where
  fd : Nat
  events : Nat
  revents : Nat
deriving DecidableEq, Repr

/-!
The function `lws_event_cb` — the DispatchBridge readiness callback.

The C function either returns without calling `lws_service_fd` (modelled
as `none`) or builds an `lws_pollfd` and forwards it (modelled as
`some eventfd`).  The source, libevent >= 2.0 build:

```
if (revents & EV_TIMEOUT)
        return;
eventfd.fd = sock_fd;
eventfd.events = 0;
eventfd.revents = 0;
if (revents & EV_READ) {
        eventfd.events |= LWS_POLLIN;
        eventfd.revents |= LWS_POLLIN;
}
if (revents & EV_WRITE) {
        eventfd.events |= LWS_POLLOUT;
        eventfd.revents |= LWS_POLLOUT;
}
lws_service_fd(context, &eventfd);
```
-/

def lws_event_cb (sock_fd : Nat) (revents : Nat) : Option LwsPollfd :=
  if revents &&& EV_TIMEOUT ≠ 0 then
    none
  else
    let e0 : LwsPollfd := ⟨sock_fd, 0, 0⟩
    let e1 : LwsPollfd :=
      if revents &&& EV_READ ≠ 0 then
        { e0 with events := e0.events ||| LWS_POLLIN,
                  revents := e0.revents ||| LWS_POLLIN }
      else e0
    let e2 : LwsPollfd :=
      if revents &&& EV_WRITE ≠ 0 then
        { e1 with events := e1.events ||| LWS_POLLOUT,
                  revents := e1.revents ||| LWS_POLLOUT }
      else e1
    some e2

/-- The readable/writable poll-flag translation of a native mask. -/
def pollFlagsOf (revents : Nat) : Nat :=
  (if revents &&& EV_READ ≠ 0 then LWS_POLLIN else 0) |||
  (if revents &&& EV_WRITE ≠ 0 then LWS_POLLOUT else 0)

theorem lws_event_cb_closed_form (sock_fd revents : Nat) :
    lws_event_cb sock_fd revents =
      if revents &&& EV_TIMEOUT ≠ 0 then none
      else some ⟨sock_fd, pollFlagsOf revents, pollFlagsOf revents⟩ := by
  unfold lws_event_cb pollFlagsOf
  by_cases ht : revents &&& EV_TIMEOUT ≠ 0 <;>
    by_cases hr : revents &&& EV_READ ≠ 0 <;>
    by_cases hw : revents &&& EV_WRITE ≠ 0 <;>
    simp [ht, hr, hw, LWS_POLLIN, LWS_POLLOUT]

/-! ## The reactor (libevent) environment

Event registrations and event bases are identified by integer tokens.
`event_free` / `event_base_free` remove the token from the live list, so
"live" at any point means "allocated and not yet freed".  Freed pointers
held elsewhere in the context are then dangling, exactly as in C. -/

/-- The signal-callback function pointers that can be stored in
`context->event.sigint_cb`: the adapter's own `lws_event_sigint_cb`, or a
user-supplied one. -/
inductive SigintCb where
  | builtin
  | custom (id : Nat)
deriving DecidableEq, Repr

/-- The C callback a registration was created with (`event_new`'s `cb`
argument): `lws_event_cb` for I/O watches, or a signal callback for
`evsignal_new`. -/
inductive Handler where
  | io_cb
  | sig_cb (c : SigintCb)
deriving DecidableEq, Repr

/-- One live `struct event` registration inside libevent. -/
structure EventReg where
  token : Nat
  /-- The `event_base` the registration was created on; `none` models a
  NULL base pointer passed to `event_new`/`evsignal_new`. -/
  base : Option Nat
  fd : Nat
  evbits : Nat
  handler : Handler
  /-- Records whether `event_add` has been called (and not undone by `event_del`). -/
  added : Bool
deriving DecidableEq, Repr

/-- The state of the external libevent library: allocators for event and
base tokens plus the live registrations/bases. -/
structure Reactor where
  nextEvent : Nat
  events : List EventReg
  nextBase : Nat
  liveBases : List Nat
deriving DecidableEq, Repr

def Reactor.liveTokens (r : Reactor) : List Nat := r.events.map (·.token)

def Reactor.regOf (r : Reactor) (tok : Nat) : Option EventReg :=
  r.events.find? (·.token = tok)

/-- Models `event_base_new()`; the `ok` oracle tells whether the allocation
succeeds (the C return value is unchecked by the adapter). -/
def event_base_new (ok : Bool) (r : Reactor) : Option Nat × Reactor :=
  if ok then
    (some r.nextBase,
     { r with nextBase := r.nextBase + 1, liveBases := r.liveBases ++ [r.nextBase] })
  else (none, r)

/-- Models `event_base_free(b)`. -/
def event_base_free (b : Nat) (r : Reactor) : Reactor :=
  { r with liveBases := r.liveBases.filter (· ≠ b) }

/-- Models `event_new(base, fd, evbits, cb, arg)`; always allocates a fresh
registration token. -/
def event_new (base : Option Nat) (fd : Nat) (evbits : Nat) (h : Handler)
    (r : Reactor) : Nat × Reactor :=
  (r.nextEvent,
   { r with nextEvent := r.nextEvent + 1,
            events := r.events ++ [⟨r.nextEvent, base, fd, evbits, h, false⟩] })

/-- Models `evsignal_new(base, signum, cb, arg)` — libevent defines it as
`event_new(base, signum, EV_SIGNAL|EV_PERSIST, cb, arg)`. -/
def evsignal_new (base : Option Nat) (signum : Nat) (c : SigintCb)
    (r : Reactor) : Nat × Reactor :=
  event_new base signum (EV_SIGNAL ||| EV_PERSIST) (Handler.sig_cb c) r

/-- Models `event_add(ev, NULL)` on a live registration token. -/
def event_add (tok : Nat) (r : Reactor) : Reactor :=
  { r with events := r.events.map fun e =>
      if e.token = tok then { e with added := true } else e }

/-- Models `event_del(ev)` on a live registration token. -/
def event_del (tok : Nat) (r : Reactor) : Reactor :=
  { r with events := r.events.map fun e =>
      if e.token = tok then { e with added := false } else e }

/-- Models `event_free(ev)`: the registration ceases to be live.  Freeing a token
that is not live models a double free (the reactor state is unchanged, and
the call is visible in the effect trace). -/
def event_free (tok : Nat) (r : Reactor) : Reactor :=
  { r with events := r.events.filter (·.token ≠ tok) }

/-- Destructive/observable reactor effects, recorded in order. -/
inductive Ev where
  /-- A call `event_free(p)`; `p` is the watcher pointer passed (possibly NULL). -/
  | freeWatch (tok : Option Nat)
  /-- A call `event_base_free(b)`. -/
  | freeBase (b : Nat)
  /-- A call `event_base_loopbreak(b)`; `b` is the base pointer (possibly NULL). -/
  | loopbreak (b : Option Nat)
deriving DecidableEq, Repr

def Ev.isFreeWatch : Ev → Bool
  | .freeWatch _ => true
  | _ => false

def Ev.isFreeBase : Ev → Bool
  | .freeBase _ => true
  | _ => false

/-! ## The adapter's data structures (`struct lws_io_watcher` etc.) -/

/-- Models `struct lws_io_watcher`: a back-reference to the context plus the
`event.watcher` pointer (a registration token, or `none` for NULL). -/
structure LwsIoWatcher where
  context_set : Bool := false
  watcher : Option Nat := none
deriving DecidableEq, Repr

/-- The fields of `struct lws` used by the adapter: the read/write watch
pair. -/
structure Wsi where
  w_read : LwsIoWatcher := {}
  w_write : LwsIoWatcher := {}
deriving DecidableEq, Repr

/-- A vhost's listening wsi (`vh->lserv_wsi`), when present: its socket
descriptor and its read watch. -/
structure LservWsi where
  sockfd : Nat
  w_read : LwsIoWatcher := {}
deriving DecidableEq, Repr

/-- One entry of `context->vhost_list`. -/
structure Vhost where
  lserv_wsi : Option LservWsi := none
deriving DecidableEq, Repr

/-- Models `struct lws_context_per_thread` (the `tsi`-th entry, the only one any
modelled operation touches). -/
structure PerThread where
  io_loop : Option Nat := none
  event_loop_foreign : Bool := false
  w_sigint : LwsIoWatcher := {}
deriving DecidableEq, Repr

/-- The fields of `struct lws_context` used by the adapter. -/
structure LwsContext where
  /-- The value of `lws_check_opt(context->options, LWS_SERVER_OPTION_LIBEVENT)`;
  also the value of the `LWS_LIBEVENT_ENABLED(context)` macro. -/
  options_libevent : Bool
  being_destroyed : Bool := false
  use_event_loop_sigint : Bool := false
  sigint_cb : SigintCb := .builtin
  vhost_list : List Vhost := []
  pt : PerThread := {}
deriving DecidableEq, Repr

/-! ## `lws_event_sigint_cb` and `lws_event_sigint_cfg` -/

/-- The adapter's default SIGINT callback:

```
if (!pt->event_loop_foreign)
        event_base_loopbreak(pt->event.io_loop);
```

Its observable behaviour is the (possibly empty) effect trace. -/
def lws_event_sigint_cb (pt : PerThread) : List Ev :=
  if !pt.event_loop_foreign then [Ev.loopbreak pt.io_loop] else []

/-- Models the source:

```
context->use_event_loop_sigint = use_event_sigint;
if (cb) context->event.sigint_cb = cb;
else    context->event.sigint_cb = &lws_event_sigint_cb;
return 0;
``` -/
def lws_event_sigint_cfg (ctx : LwsContext) (use_event_sigint : Bool)
    (cb : Option SigintCb) : LwsContext × Nat :=
  ({ ctx with
      use_event_loop_sigint := use_event_sigint,
      sigint_cb := match cb with
        | some c => c
        | none => SigintCb.builtin }, 0)

/-! ## `lws_event_initloop` -/

/-- The `while (vh)` loop of `lws_event_initloop`: for every vhost with a
listening wsi, create a persistent read watch — note the C passes the raw
`loop` *parameter* (not `pt->event.io_loop`) as the base — and
`event_add` it immediately.

```
while (vh) {
        if (vh->lserv_wsi) {
                vh->lserv_wsi->w_read.context = context;
                vh->lserv_wsi->w_read.event.watcher = event_new(
                                loop, vh->lserv_wsi->desc.sockfd,
                                (EV_READ | EV_PERSIST), lws_event_cb,
                                &vh->lserv_wsi->w_read);
                event_add(vh->lserv_wsi->w_read.event.watcher, NULL);
        }
        vh = vh->vhost_next;
}
``` -/
def initloop_vhosts (loop : Option Nat) (vhs : List Vhost) (r : Reactor) :
    List Vhost × Reactor :=
  match vhs with
  | [] => ([], r)
  | vh :: rest =>
    match vh.lserv_wsi with
    | some w =>
      let p := event_new loop w.sockfd (EV_READ ||| EV_PERSIST) Handler.io_cb r
      let r1 := event_add p.1 p.2
      let q := initloop_vhosts loop rest r1
      (({ lserv_wsi := some
            { w with w_read := { context_set := true, watcher := some p.1 } } }
          : Vhost) :: q.1, q.2)
    | none =>
      let q := initloop_vhosts loop rest r
      (vh :: q.1, q.2)

/-- Models `lws_event_initloop(context, loop, tsi)`.  `base_new_ok` is the
success oracle for `event_base_new()` (the C code does not check its
result); `pipes_fail` is the result oracle for the external
`lws_create_event_pipes(context)`.  Returns the updated context, reactor
and the C `int` result (0 success / 1 failure). -/
def lws_event_initloop (ctx : LwsContext) (loop : Option Nat)
    (base_new_ok : Bool) (pipes_fail : Bool) (r : Reactor) :
    LwsContext × Reactor × Nat :=
  let ctx1T : LwsContext × Reactor :=
    match loop with
    | none =>
      let p := event_base_new base_new_ok r
      ({ ctx with pt := { ctx.pt with io_loop := p.1 } }, p.2)
    | some _ =>
      ({ ctx with pt := { ctx.pt with event_loop_foreign := true,
                                      io_loop := loop } }, r)
  let ctx1 := ctx1T.1
  let r1 := ctx1T.2
  if pipes_fail then (ctx1, r1, 1)
  else
    let q := initloop_vhosts loop ctx1.vhost_list r1
    let ctx2 := { ctx1 with vhost_list := q.1 }
    let r2 := q.2
    if !ctx2.use_event_loop_sigint then (ctx2, r2, 0)
    else
      let p := evsignal_new loop SIGINT ctx2.sigint_cb r2
      let r3 := event_add p.1 p.2
      ({ ctx2 with pt := { ctx2.pt with
           w_sigint := { ctx2.pt.w_sigint with watcher := some p.1 } } },
       r3, 0)

/-! ## `lws_libevent_destroyloop` -/

/-- The `while (vh)` loop of `lws_libevent_destroyloop`:

```
while (vh) {
        if (vh->lserv_wsi) {
                event_free(vh->lserv_wsi->w_read.event.watcher);
                vh->lserv_wsi->w_read.event.watcher = NULL;
        }
        vh = vh->vhost_next;
}
```

`event_free` is called on whatever pointer the field holds (possibly
NULL), and the field is then nulled. -/
def destroyloop_vhosts (vhs : List Vhost) (r : Reactor) :
    List Vhost × Reactor × List Ev :=
  match vhs with
  | [] => ([], r, [])
  | vh :: rest =>
    match vh.lserv_wsi with
    | some w =>
      let r1 := match w.w_read.watcher with
        | some tok => event_free tok r
        | none => r
      let q := destroyloop_vhosts rest r1
      (({ lserv_wsi := some { w with w_read := { w.w_read with watcher := none } } }
          : Vhost) :: q.1,
       q.2.1, Ev.freeWatch w.w_read.watcher :: q.2.2)
    | none =>
      let q := destroyloop_vhosts rest r
      (vh :: q.1, q.2.1, q.2.2)

/-- Models `if (context->use_event_loop_sigint) event_free(pt->w_sigint.event.watcher);`
— the watcher pointer (possibly NULL) is passed to `event_free` and is
*not* nulled afterwards. -/
def sigintFreeStep (useSig : Bool) (w : Option Nat) (r : Reactor) :
    Reactor × List Ev :=
  if useSig then
    (match w with
      | some tok => event_free tok r
      | none => r,
     [Ev.freeWatch w])
  else (r, [])

/-- Models `if (!pt->event_loop_foreign) event_base_free(pt->event.io_loop);` -/
def baseFreeStep (foreign : Bool) (loopb : Nat) (r : Reactor) :
    Reactor × List Ev :=
  if !foreign then (event_base_free loopb r, [Ev.freeBase loopb])
  else (r, [])

/-- Models `lws_libevent_destroyloop(context, tsi)`. -/
def lws_libevent_destroyloop (ctx : LwsContext) (r : Reactor) :
    LwsContext × Reactor × List Ev :=
  if !ctx.options_libevent then (ctx, r, [])
  else
    match ctx.pt.io_loop with
    | none => (ctx, r, [])
    | some loopb =>
      let q := destroyloop_vhosts ctx.vhost_list r
      let ctx1 := { ctx with vhost_list := q.1 }
      let sT := sigintFreeStep ctx1.use_event_loop_sigint
          ctx1.pt.w_sigint.watcher q.2.1
      let bT := baseFreeStep ctx1.pt.event_loop_foreign loopb sT.1
      (ctx1, bT.1, q.2.2 ++ sT.2 ++ bT.2)

/-! ## `lws_libevent_accept`, `lws_libevent_destroy`, `lws_libevent_io` -/

/-- Models `lws_libevent_accept(new_wsi, desc)`: creates (without activating) the
read and write watches on `pt->event.io_loop`.  `fd` is the descriptor
already selected from `desc` by the role (socket vs raw file). -/
def lws_libevent_accept (ctx : LwsContext) (wsi : Wsi) (fd : Nat)
    (r : Reactor) : Wsi × Reactor :=
  if !ctx.options_libevent then (wsi, r)
  else
    let p1 := event_new ctx.pt.io_loop fd (EV_READ ||| EV_PERSIST)
        Handler.io_cb r
    let p2 := event_new ctx.pt.io_loop fd (EV_WRITE ||| EV_PERSIST)
        Handler.io_cb p1.2
    ({ w_read := { context_set := true, watcher := some p1.1 },
       w_write := { context_set := true, watcher := some p2.1 } }, p2.2)

/-- Models `lws_libevent_destroy(wsi)`:

```
if (!wsi) return;
if (wsi->w_read.event.watcher)  event_free(wsi->w_read.event.watcher);
if (wsi->w_write.event.watcher) event_free(wsi->w_write.event.watcher);
```

The watcher fields are *not* written, so the returned wsi still holds the
(now freed) tokens. -/
def lws_libevent_destroy (wsi : Option Wsi) (r : Reactor) :
    Option Wsi × Reactor × List Ev :=
  match wsi with
  | none => (none, r, [])
  | some w =>
    let rT : Reactor × List Ev :=
      match w.w_read.watcher with
      | some tok => (event_free tok r, [Ev.freeWatch (some tok)])
      | none => (r, [])
    let wT : Reactor × List Ev :=
      match w.w_write.watcher with
      | some tok => (event_free tok rT.1, [Ev.freeWatch (some tok)])
      | none => (rT.1, [])
    (some w, wT.1, rT.2 ++ wT.2)

/-- Models `lws_libevent_io(wsi, flags)`.  Result `none` models the assertion
`assert((flags & (LWS_EV_START|LWS_EV_STOP)) && (flags &
(LWS_EV_READ|LWS_EV_WRITE)))` firing; `some r` is a normal return with
the (possibly updated) reactor. -/
def lws_libevent_io (ctx : LwsContext) (wsi : Wsi) (flags : Nat)
    (r : Reactor) : Option Reactor :=
  if !ctx.options_libevent then some r
  else if ctx.pt.io_loop = none || ctx.being_destroyed then some r
  else if !(flags &&& (LWS_EV_START ||| LWS_EV_STOP) ≠ 0 ∧
            flags &&& (LWS_EV_READ ||| LWS_EV_WRITE) ≠ 0 : Bool) then none
  else if flags &&& LWS_EV_START ≠ 0 then
    let r1 := if flags &&& LWS_EV_WRITE ≠ 0 then
        match wsi.w_write.watcher with
        | some tok => event_add tok r
        | none => r
      else r
    let r2 := if flags &&& LWS_EV_READ ≠ 0 then
        match wsi.w_read.watcher with
        | some tok => event_add tok r1
        | none => r1
      else r1
    some r2
  else
    let r1 := if flags &&& LWS_EV_WRITE ≠ 0 then
        match wsi.w_write.watcher with
        | some tok => event_del tok r
        | none => r
      else r
    let r2 := if flags &&& LWS_EV_READ ≠ 0 then
        match wsi.w_read.watcher with
        | some tok => event_del tok r1
        | none => r1
      else r1
    some r2

/-! ## Well-formedness helpers -/

/-- A watcher field is intact when it is NULL or refers to a live
registration (the "never dangling" property of the spec). -/
def watcherIntact (w : LwsIoWatcher) (r : Reactor) : Bool :=
  match w.watcher with
  | none => true
  | some t => r.liveTokens.contains t

/-! ## Concrete fixtures used by the closed theorems -/

/-- A reactor holding one live base (token 0) and no registrations. -/
def rBase : Reactor := { nextEvent := 0, events := [], nextBase := 1, liveBases := [0] }

/-- An enabled context whose thread loop is base 0. -/
def ctxLive : LwsContext := { options_libevent := true, pt := { io_loop := some 0 } }

/-- The watch pair created by accepting a connection on descriptor 5. -/
def wsiPair : Wsi := (lws_libevent_accept ctxLive {} 5 rBase).1

/-- The reactor after that accept. -/
def rAccept : Reactor := (lws_libevent_accept ctxLive {} 5 rBase).2

/-- First `lws_libevent_destroy` of the accepted connection. -/
def destroy1 : Option Wsi × Reactor × List Ev :=
  lws_libevent_destroy (some wsiPair) rAccept

/-- Second `lws_libevent_destroy` of the same connection. -/
def destroy2 : Option Wsi × Reactor × List Ev :=
  lws_libevent_destroy destroy1.1 destroy1.2.1

/-! ## Claim theorems -/

/-- C2 counterexample: the native mask `EV_TIMEOUT|EV_READ` has the read
bit set, yet `lws_event_cb` forwards nothing at all (the timeout early
return fires even when I/O bits are present), refuting "forwards exactly
the pair {readable iff the read bit is set, ...}" at this input. -/
theorem lws_event_cb_timeout_masks_read :
    (EV_TIMEOUT ||| EV_READ) &&& EV_READ ≠ 0 ∧
    lws_event_cb 7 (EV_TIMEOUT ||| EV_READ) = none := by
  decide

/-- C2 (amended): any mask containing the timeout bit — even together
with I/O bits — is dropped with no forward and no state change; any mask
without the timeout bit is forwarded as the translated
{readable iff read bit, writable iff write bit} pair, including a forward
with neither flag set when no recognized I/O bit is set. -/
theorem lws_event_cb_translation (fd m : Nat) :
    (m &&& EV_TIMEOUT ≠ 0 → lws_event_cb fd m = none) ∧
    (m &&& EV_TIMEOUT = 0 →
      lws_event_cb fd m = some ⟨fd, pollFlagsOf m, pollFlagsOf m⟩) := by
  constructor
  · intro h
    rw [lws_event_cb_closed_form]
    simp [h]
  · intro h
    rw [lws_event_cb_closed_form]
    simp [h]

/-- C2 witness: a read-only mask is forwarded as the readable-only pair. -/
theorem lws_event_cb_translation_witness :
    EV_READ &&& EV_TIMEOUT = 0 ∧
    lws_event_cb 3 EV_READ = some ⟨3, pollFlagsOf EV_READ, pollFlagsOf EV_READ⟩ :=
  ⟨by decide, (lws_event_cb_translation 3 EV_READ).2 (by decide)⟩

/-- C10: whenever the DispatchBridge forwards a poll-event record, its
events-requested field equals its events-ready field. -/
theorem lws_event_cb_events_eq_revents (fd m : Nat) (e : LwsPollfd)
    (h : lws_event_cb fd m = some e) : e.events = e.revents := by
  rw [lws_event_cb_closed_form] at h
  by_cases ht : m &&& EV_TIMEOUT ≠ 0
  · simp [ht] at h
  · simp [ht] at h
    rw [← h]

/-- C10 witness: concrete forward of a read-ready mask. -/
theorem lws_event_cb_events_eq_revents_witness :
    lws_event_cb 3 EV_READ = some ⟨3, LWS_POLLIN, LWS_POLLIN⟩ ∧
    (LwsPollfd.mk 3 LWS_POLLIN LWS_POLLIN).events =
      (LwsPollfd.mk 3 LWS_POLLIN LWS_POLLIN).revents :=
  ⟨by decide, lws_event_cb_events_eq_revents 3 EV_READ _ (by decide)⟩

/-- C3 (code-bug demonstration): `lws_libevent_destroy` frees both watch
registrations but never nulls the stored tokens, so a second call on the
same connection is not a no-op: it calls `event_free` again on both
already-freed tokens (a double free). -/
theorem lws_libevent_destroy_not_idempotent :
    destroy1.1 = some wsiPair ∧
    wsiPair.w_read.watcher = some 0 ∧
    destroy1.2.1.liveTokens.contains 0 = false ∧
    destroy2.2.2 = [Ev.freeWatch (some 0), Ev.freeWatch (some 1)] := by
  decide

/-- C4 (code-bug demonstration): the connection-destroy path violates the
never-dangling invariant: before the call the read watcher refers to a
live registration, and after the call the token is still stored but no
longer refers to any live registration. -/
theorem lws_libevent_destroy_leaves_dangling :
    watcherIntact wsiPair.w_read rAccept = true ∧
    destroy1.1 = some wsiPair ∧
    watcherIntact wsiPair.w_read destroy1.2.1 = false := by
  decide

/-- A fresh, empty reactor. -/
def rEmpty : Reactor := { nextEvent := 0, events := [], nextBase := 0, liveBases := [] }

/-- An enabled context with one vhost listening on socket 7 and signal
handling on. -/
def ctxInit : LwsContext :=
  { options_libevent := true, use_event_loop_sigint := true,
    vhost_list := [{ lserv_wsi := some { sockfd := 7 } }] }

/-- An `initLoop` run with no external loop (owned case), base creation
succeeding, pipe creation succeeding. -/
def initOwned : LwsContext × Reactor × Nat :=
  lws_event_initloop ctxInit none true false rEmpty

/-- C5 (code-bug demonstration): in the owned case the new base (0) is
stored in `pt->event.io_loop`, and the listening-socket read watch is
created with persistent read interest and added immediately — but on the
NULL `loop` parameter, not on the thread's instance: no registration
created by the run is on base 0. -/
theorem lws_event_initloop_owned_wrong_base :
    initOwned.1.pt.io_loop = some 0 ∧
    (initOwned.1.vhost_list.head?.bind (·.lserv_wsi)).map (·.w_read.watcher) =
      some (some 0) ∧
    initOwned.2.1.regOf 0 =
      some ⟨0, none, 7, EV_READ ||| EV_PERSIST, Handler.io_cb, true⟩ ∧
    initOwned.2.1.events.all (fun e => e.base ≠ initOwned.1.pt.io_loop) = true := by
  decide

/-- An `initLoop` run where `event_base_new` fails and pipe creation
succeeds. -/
def initBaseFail : LwsContext × Reactor × Nat :=
  lws_event_initloop { options_libevent := true } none false false rEmpty

/-- C6 counterexample: `event_base_new` failure is never checked — with
reactor-instance creation failing and pipe creation succeeding, initLoop
still returns 0 (success), leaving the thread's loop NULL. -/
theorem lws_event_initloop_ignores_base_failure :
    initBaseFail.1.pt.io_loop = none ∧ initBaseFail.2.2 = 0 := by
  decide

/-- C6 (amended): initLoop returns failure (1) exactly when creation of
the wake/interrupt pipe mechanism fails, and success (0) otherwise; a
reactor-instance creation failure is not detected and does not produce a
failure result. -/
theorem lws_event_initloop_result (ctx : LwsContext) (loop : Option Nat)
    (base_new_ok pipes_fail : Bool) (r : Reactor) :
    (lws_event_initloop ctx loop base_new_ok pipes_fail r).2.2 =
      if pipes_fail then 1 else 0 := by
  unfold lws_event_initloop
  cases loop <;> by_cases hp : pipes_fail <;>
    simp [hp] <;> split <;> rfl

/-- Every effect recorded while freeing the listening-socket watches is a
watch free (never a base free). -/
lemma destroyloop_vhosts_all_freeWatch (vhs : List Vhost) (r : Reactor) :
    ∀ e ∈ (destroyloop_vhosts vhs r).2.2, e.isFreeWatch = true := by
  induction vhs generalizing r with
  | nil => intro e he; simp [destroyloop_vhosts] at he
  | cons vh rest ih =>
    intro e he
    unfold destroyloop_vhosts at he
    cases hv : vh.lserv_wsi with
    | some w =>
      simp only [hv] at he
      rcases List.mem_cons.mp he with h | h
      · subst h; rfl
      · exact ih _ e h
    | none =>
      simp only [hv] at he
      exact ih r e he

/-- An owned (non-foreign) loop state on which destroyLoop nevertheless
frees no base: the adapter option is disabled. -/
def ctxOwnedDisabled : LwsContext :=
  { options_libevent := false, pt := { io_loop := some 0 } }

/-- C1 counterexample: the loop is not marked foreign, yet destroyLoop
performs no `event_base_free` call at all — the disabled-adapter guard
returns first, so the owned flag alone does not determine the
destroy-instance call. -/
theorem destroyloop_owned_but_no_base_free :
    ctxOwnedDisabled.pt.event_loop_foreign = false ∧
    (lws_libevent_destroyloop ctxOwnedDisabled rBase).2.2 = [] := by
  decide

/-- Every effect recorded by the signal-watch free step is a watch free. -/
lemma sigintFreeStep_all_freeWatch (useSig : Bool) (w : Option Nat)
    (r : Reactor) : ∀ e ∈ (sigintFreeStep useSig w r).2, e.isFreeWatch = true := by
  unfold sigintFreeStep
  cases useSig <;> simp [Ev.isFreeWatch]

/-- Every effect recorded by the base free step is a base free. -/
lemma baseFreeStep_all_freeBase (foreign : Bool) (loopb : Nat)
    (r : Reactor) : ∀ e ∈ (baseFreeStep foreign loopb r).2, e.isFreeBase = true := by
  unfold baseFreeStep
  cases foreign <;> simp [Ev.isFreeBase]

/-- The base free step performs a base free exactly when the loop is not
foreign. -/
lemma baseFreeStep_mem_iff (foreign : Bool) (loopb : Nat) (r : Reactor) :
    (∃ b, Ev.freeBase b ∈ (baseFreeStep foreign loopb r).2) ↔ foreign = false := by
  unfold baseFreeStep
  cases foreign <;> simp

/-- C1 (amended): destroyLoop invokes `event_base_free` exactly when the
adapter option is enabled, the thread's loop was initialized, and the
loop is not marked foreign; in particular a foreign loop is never freed,
regardless of any other state. -/
theorem destroyloop_frees_base_iff (ctx : LwsContext) (r : Reactor) :
    (∃ b, Ev.freeBase b ∈ (lws_libevent_destroyloop ctx r).2.2) ↔
      (ctx.options_libevent = true ∧ ctx.pt.io_loop ≠ none ∧
       ctx.pt.event_loop_foreign = false) := by
  unfold lws_libevent_destroyloop
  by_cases ho : ctx.options_libevent
  · simp only [ho, Bool.not_true, Bool.false_eq_true, if_false]
    cases hl : ctx.pt.io_loop with
    | none => simp
    | some loopb =>
      simp only
      constructor
      · rintro ⟨b, hb⟩
        rcases List.mem_append.mp hb with h | h
        · rcases List.mem_append.mp h with h1 | h1
          · have := destroyloop_vhosts_all_freeWatch ctx.vhost_list r _ h1
            simp [Ev.isFreeWatch] at this
          · have := sigintFreeStep_all_freeWatch _ _ _ _ h1
            simp [Ev.isFreeWatch] at this
        · have hf := (baseFreeStep_mem_iff _ _ _).mp ⟨b, h⟩
          exact ⟨trivial, by simp [hl], hf⟩
      · rintro ⟨-, -, hf⟩
        obtain ⟨b, hb⟩ := (baseFreeStep_mem_iff ctx.pt.event_loop_foreign
          loopb (sigintFreeStep ctx.use_event_loop_sigint
            ctx.pt.w_sigint.watcher (destroyloop_vhosts ctx.vhost_list r).2.1).1).mpr hf
        exact ⟨b, List.mem_append.mpr (Or.inr hb)⟩
  · simp only [ho]
    simp [ho]

/-- C1 witness: an enabled, initialized, owned loop state on which the
base is freed. -/
theorem destroyloop_frees_base_iff_witness :
    ∃ b, Ev.freeBase b ∈ (lws_libevent_destroyloop ctxLive rBase).2.2 :=
  (destroyloop_frees_base_iff ctxLive rBase).mpr (by decide)

/-- C8: destroyLoop is a no-op (state and trace) when the adapter feature
is disabled or the loop was never initialized, and in every execution its
effect trace splits into a prefix of watch frees followed by a suffix of
base frees — every watch release happens strictly before the reactor
instance is destroyed. -/
theorem destroyloop_noop_and_order (ctx : LwsContext) (r : Reactor) :
    ((ctx.options_libevent = false ∨ ctx.pt.io_loop = none) →
      lws_libevent_destroyloop ctx r = (ctx, r, [])) ∧
    (∃ pre post, (lws_libevent_destroyloop ctx r).2.2 = pre ++ post ∧
      (∀ e ∈ pre, e.isFreeWatch = true) ∧
      (∀ e ∈ post, e.isFreeBase = true)) := by
  constructor
  · intro h
    unfold lws_libevent_destroyloop
    rcases h with h | h
    · simp [h]
    · cases ho : ctx.options_libevent <;> simp [ho, h]
  · unfold lws_libevent_destroyloop
    by_cases ho : ctx.options_libevent
    · simp only [ho, Bool.not_true, Bool.false_eq_true, if_false]
      cases hl : ctx.pt.io_loop with
      | none => exact ⟨[], [], by simp⟩
      | some loopb =>
        refine ⟨_, _, rfl, ?_, ?_⟩
        · intro e he
          rcases List.mem_append.mp he with h | h
          · exact destroyloop_vhosts_all_freeWatch ctx.vhost_list r e h
          · exact sigintFreeStep_all_freeWatch _ _ _ e h
        · intro e he
          exact baseFreeStep_all_freeBase _ _ _ e he
    · exact ⟨[], [], by simp [ho], by simp, by simp⟩

/-- C8 witness: the disabled-adapter no-op, via the theorem. -/
theorem destroyloop_noop_and_order_witness :
    lws_libevent_destroyloop ctxOwnedDisabled rBase = (ctxOwnedDisabled, rBase, []) :=
  (destroyloop_noop_and_order ctxOwnedDisabled rBase).1 (Or.inl (by decide))

/-- A disabled-adapter context. -/
def ctxDisabled : LwsContext := { options_libevent := false }

/-- C7 counterexample: with the adapter disabled, a call whose flag
argument contains no direction bit (and no start/stop bit either) does
not fail fast via the assertion — the disabled guard returns first and
the call is a silent no-op. -/
theorem lws_libevent_io_guard_before_assert :
    (0 : Nat) &&& (LWS_EV_READ ||| LWS_EV_WRITE) = 0 ∧
    lws_libevent_io ctxDisabled {} 0 rBase = some rBase := by
  decide

/-- C7 (amended): the three no-op guards (adapter disabled, reactor
instance absent, context being destroyed) take precedence and return with
the reactor unchanged even for invalid flags; only when every guard is
passed does the assertion fire, and it fires exactly when the flags lack
a start/stop bit or lack a direction bit. -/
theorem lws_libevent_io_noop_and_assert (ctx : LwsContext) (wsi : Wsi)
    (flags : Nat) (r : Reactor) :
    (lws_libevent_io ctx wsi flags r = none ↔
      (ctx.options_libevent = true ∧ ctx.pt.io_loop ≠ none ∧
       ctx.being_destroyed = false ∧
       (flags &&& (LWS_EV_START ||| LWS_EV_STOP) = 0 ∨
        flags &&& (LWS_EV_READ ||| LWS_EV_WRITE) = 0))) ∧
    ((ctx.options_libevent = false ∨ ctx.pt.io_loop = none ∨
      ctx.being_destroyed = true) →
      lws_libevent_io ctx wsi flags r = some r) := by
  unfold lws_libevent_io
  by_cases ho : ctx.options_libevent <;>
    by_cases hl : ctx.pt.io_loop = none <;>
      by_cases hd : ctx.being_destroyed <;>
        by_cases hs : flags &&& (LWS_EV_START ||| LWS_EV_STOP) = 0 <;>
          by_cases hrw : flags &&& (LWS_EV_READ ||| LWS_EV_WRITE) = 0 <;>
            simp [ho, hl, hd, hs, hrw]
  split <;> simp

/-- C7 witness: with every guard passed and a flags value carrying a
start bit but no direction bit, the assertion fires. -/
theorem lws_libevent_io_noop_and_assert_witness :
    lws_libevent_io ctxLive {} LWS_EV_START rBase = none :=
  (lws_libevent_io_noop_and_assert ctxLive {} LWS_EV_START rBase).1.mpr
    (by decide)

/-- Mapping a function over a list and taking the last element of a
one-element extension. -/
lemma map_concat_getLast (f : α → β) (xs : List α) (a : α) :
    ((xs ++ [a]).map f).getLast? = some (f a) := by
  rw [List.map_append]
  simp

/-- When signal handling is enabled and pipe creation succeeds,
`lws_event_initloop` allocates a fresh signal registration as its last
reactor allocation: bound to `context->event.sigint_cb`, on signal
SIGINT, with `EV_SIGNAL|EV_PERSIST`, added immediately, created on the
`loop` parameter; the token is stored in `pt->w_sigint`. -/
lemma initloop_sigint_reg (ctx : LwsContext) (loop : Option Nat)
    (bok : Bool) (r : Reactor) (h : ctx.use_event_loop_sigint = true) :
    ∃ t, (lws_event_initloop ctx loop bok false r).1.pt.w_sigint.watcher = some t ∧
      (lws_event_initloop ctx loop bok false r).2.1.events.getLast? =
        some ⟨t, loop, SIGINT, EV_SIGNAL ||| EV_PERSIST,
              Handler.sig_cb ctx.sigint_cb, true⟩ := by
  unfold lws_event_initloop
  cases loop with
  | none =>
    simp only [h, Bool.not_true, Bool.false_eq_true, if_false]
    refine ⟨_, rfl, ?_⟩
    unfold event_add evsignal_new event_new
    simp only
    rw [map_concat_getLast]
    simp
  | some b =>
    simp only [h, Bool.not_true, Bool.false_eq_true, if_false]
    refine ⟨_, rfl, ?_⟩
    unfold event_add evsignal_new event_new
    simp only
    rw [map_concat_getLast]
    simp

/-- C9: (i) configuring with no explicit callback installs the builtin
request-loop-stop callback and records the enable flag; (ii) with signal
handling suppressed, initLoop leaves the signal watch untouched; (iii)
with signal handling enabled (and the run reaching past pipe creation),
initLoop registers and activates a SIGINT signal watch bound to the
configured callback; (iv) when the builtin callback fires it requests a
loop break exactly when the loop is not foreign — for a foreign loop the
request is suppressed and nothing happens. -/
theorem sigint_registration_and_break (ctx : LwsContext) (use : Bool)
    (loop : Option Nat) (bok : Bool) (r : Reactor) (pt : PerThread) :
    ((lws_event_sigint_cfg ctx use none).1.sigint_cb = SigintCb.builtin ∧
     (lws_event_sigint_cfg ctx use none).1.use_event_loop_sigint = use) ∧
    (ctx.use_event_loop_sigint = false →
      (lws_event_initloop ctx loop bok false r).1.pt.w_sigint = ctx.pt.w_sigint) ∧
    (ctx.use_event_loop_sigint = true →
      ∃ t, (lws_event_initloop ctx loop bok false r).1.pt.w_sigint.watcher = some t ∧
        (lws_event_initloop ctx loop bok false r).2.1.events.getLast? =
          some ⟨t, loop, SIGINT, EV_SIGNAL ||| EV_PERSIST,
                Handler.sig_cb ctx.sigint_cb, true⟩) ∧
    (lws_event_sigint_cb pt =
      if pt.event_loop_foreign then [] else [Ev.loopbreak pt.io_loop]) := by
  refine ⟨⟨rfl, rfl⟩, ?_, ?_, ?_⟩
  · intro h
    unfold lws_event_initloop
    cases loop <;> simp [h]
  · exact initloop_sigint_reg ctx loop bok r
  · unfold lws_event_sigint_cb
    cases hf : pt.event_loop_foreign <;> simp

/-- C9 witness: a foreign-loop init with signal handling enabled; the
signal watch exists, is bound to the configured callback and activated,
and the builtin callback on a foreign per-thread state produces no
break request. -/
theorem sigint_registration_and_break_witness :
    ctxInit.use_event_loop_sigint = true ∧
    (∃ t, (lws_event_initloop ctxInit (some 5) true false rEmpty).1.pt.w_sigint.watcher = some t ∧
      (lws_event_initloop ctxInit (some 5) true false rEmpty).2.1.events.getLast? =
        some ⟨t, some 5, SIGINT, EV_SIGNAL ||| EV_PERSIST,
              Handler.sig_cb ctxInit.sigint_cb, true⟩) ∧
    lws_event_sigint_cb { io_loop := some 5, event_loop_foreign := true } = [] :=
  ⟨rfl,
   (sigint_registration_and_break ctxInit true (some 5) true rEmpty
      { io_loop := some 5, event_loop_foreign := true }).2.2.1 rfl,
   by
     have := (sigint_registration_and_break ctxInit true (some 5) true rEmpty
       { io_loop := some 5, event_loop_foreign := true }).2.2.2
     simpa using this⟩

end LibeventAdapter
